import Mathlib

/-!
Verification of the SUV/ACT scale-factor computation of
`src/imgtools/modules/pet.py` (`PET.calc_factor`).

The metadata record is embedded with its numeric tags already parsed:
a field holds `none` when the DICOM tag is missing or its string value
does not parse (a missing attribute or a failed `float`/`strptime` call
lands in the corresponding bare `except` of the source).  Clock times
parsed with the format HHMMSS.ffffff are represented as microseconds
since midnight.  Real-number arithmetic stands for the float arithmetic
of the source.
-/

/-- Parsed metadata tags used by `calc_factor`.  Field names follow the
DICOM attribute names read by the source. -/
structure PETMeta where
  PatientWeight : Option ℚ
  AcquisitionTime : Option ℕ
  RadiopharmaceuticalStartTime : Option ℕ
  RadionuclideHalfLife : Option ℚ
  RadionuclideTotalDose : Option ℚ

/-- Whole seconds elapsed from injection to scan, as computed by
`(scan_time - injection_time).seconds` on Python datetimes that share
the same date: the difference in microseconds is reduced modulo one day
(Euclidean, hence non-negative) and the fractional second is discarded
by integer division. -/
def deltaSec (stUs itUs : ℕ) : ℕ :=
  ((((stUs : ℤ) - (itUs : ℤ)) % 86400000000).toNat) / 1000000

/-- Effective (delta-t seconds, half-life, total dose) triple entering the
decay computation.  The precise branch requires all four
radiopharmaceutical tags to parse and the half-life to be non-zero: a
zero half-life makes `.seconds / half_life` raise ZeroDivisionError,
which the bare `except` of the source turns into the fallback constants
`delta-t = 1.75 * 3600`, `half_life = 6588`, `dose = 420e6`. -/
def effParams (m : PETMeta) : ℚ × ℚ × ℚ :=
  match m.AcquisitionTime, m.RadiopharmaceuticalStartTime,
        m.RadionuclideHalfLife, m.RadionuclideTotalDose with
  | some st, some it, some hl, some dose =>
      if hl = 0 then (1.75 * 3600, 6588, 420000000)
      else ((deltaSec st it : ℚ), hl, dose)
  | _, _, _, _ => (1.75 * 3600, 6588, 420000000)

/-- Resolved weight in grams: `float(df.PatientWeight) * 1000`, or the
75000 g default when the tag is missing or unparseable. -/
def weightG (m : PETMeta) : ℚ :=
  match m.PatientWeight with
  | some w => w * 1000
  | none => 75000

/-- `true` exactly when the source's second `try` block succeeds (all four
radiopharmaceutical tags parse and the half-life is non-zero). -/
def preciseOk (m : PETMeta) : Bool :=
  match m.AcquisitionTime, m.RadiopharmaceuticalStartTime,
        m.RadionuclideHalfLife, m.RadionuclideTotalDose with
  | some _, some _, some hl, some _ => decide (hl ≠ 0)
  | _, _, _, _ => false

/-- Decay factor `a = exp(-log(2) * (delta-t / half_life))` over the
effective parameters. -/
noncomputable def decayFactor (m : PETMeta) : ℝ :=
  Real.exp (-(Real.log 2) * (((effParams m).1 : ℝ) / ((effParams m).2.1 : ℝ)))

/-- `injected_dose_decay = a * injected_dose` over the effective
parameters (on the fallback branch the source writes `420000000 * a`). -/
noncomputable def decayedDose (m : PETMeta) : ℝ :=
  decayFactor m * ((effParams m).2.2 : ℝ)

/-- `calc_factor`: the source computes `suv = weight/injected_dose_decay`,
returns it when `type == "SUV"` and returns `1/a` for any other string. -/
noncomputable def calc_factor (m : PETMeta) (type : String) : ℝ :=
  let suv := (weightG m : ℝ) / decayedDose m
  if type = "SUV" then suv else 1 / decayFactor m

/-- `calc_factor` with the two division sites made explicit: `none` marks
a zero divisor reaching a division.  The `suv` division executes before
the mode branch, exactly as in the source. -/
noncomputable def calc_factorDiv (m : PETMeta) (type : String) : Option ℝ :=
  if decayedDose m = 0 then none
  else
    let suv := (weightG m : ℝ) / decayedDose m
    if type = "SUV" then some suv
    else if decayFactor m = 0 then none else some (1 / decayFactor m)

/-- `calc_factor` together with the list of warnings emitted by the two
`except` handlers of the source. -/
noncomputable def calc_factorW (m : PETMeta) (type : String) : ℝ × List String :=
  let wWeight : List String :=
    if m.PatientWeight.isSome then []
    else ["Patient Weight Not Present. Taking 75Kg"]
  let wPath : List String :=
    if preciseOk m then []
    else ["Not enough data available, taking average values"]
  (calc_factor m type, wWeight ++ wPath)

/-- At least one of the four radiopharmaceutical tags is missing or
unparseable. -/
def radioTagMissing (m : PETMeta) : Prop :=
  m.AcquisitionTime = none ∨ m.RadiopharmaceuticalStartTime = none ∨
    m.RadionuclideHalfLife = none ∨ m.RadionuclideTotalDose = none

/-- At least one of the five tags read by `calc_factor` is missing or
unparseable. -/
def anyTagMissing (m : PETMeta) : Prop :=
  m.PatientWeight = none ∨ radioTagMissing m

/-- Decay factor produced by the fallback branch. -/
noncomputable def fallbackA : ℝ :=
  Real.exp (-(Real.log 2) * (6300 / 6588))

lemma effParams_radioMissing (m : PETMeta) (h : radioTagMissing m) :
    effParams m = (1.75 * 3600, 6588, 420000000) := by
  obtain ⟨w, a, i, hl, d⟩ := m
  rcases a with _ | st <;> rcases i with _ | it <;>
    rcases hl with _ | hlv <;> rcases d with _ | dv <;>
    first
      | rfl
      | simp [radioTagMissing] at h

lemma decayFactor_of_effParams_fallback (m : PETMeta)
    (h : effParams m = (1.75 * 3600, 6588, 420000000)) :
    decayFactor m = fallbackA := by
  unfold decayFactor fallbackA
  rw [h]
  norm_num

lemma decayedDose_of_effParams_fallback (m : PETMeta)
    (h : effParams m = (1.75 * 3600, 6588, 420000000)) :
    decayedDose m = fallbackA * 420000000 := by
  unfold decayedDose
  rw [decayFactor_of_effParams_fallback m h, h]
  norm_num

lemma decayFactor_pos (m : PETMeta) : 0 < decayFactor m :=
  Real.exp_pos _

lemma fallbackA_pos : 0 < fallbackA :=
  Real.exp_pos _

/-- Claim C1: `calc_factor` returns `weight_g / decayed_dose` in SUV mode
and `1 / a` in ACT mode, where `decayed_dose = a * total_dose` is built
from the same decay factor `a` on both branches. -/
theorem calc_factor_modes (m : PETMeta) :
    calc_factor m "SUV" = (weightG m : ℝ) / decayedDose m ∧
    calc_factor m "ACT" = 1 / decayFactor m ∧
    decayedDose m = decayFactor m * ((effParams m).2.2 : ℝ) :=
  ⟨rfl, rfl, rfl⟩

/-- Claim C3: when any radiopharmaceutical tag is missing or unparseable,
`calc_factor` is computed from the fallback constants `delta-t = 6300 s`,
`half_life = 6588 s`, `dose = 420e6`, combined with the resolved
weight. -/
theorem calc_factor_radioMissing (m : PETMeta) (mode : String)
    (h : radioTagMissing m) :
    decayFactor m = fallbackA ∧
    decayedDose m = fallbackA * 420000000 ∧
    calc_factor m mode =
      (if mode = "SUV" then (weightG m : ℝ) / (fallbackA * 420000000)
       else 1 / fallbackA) := by
  have he := effParams_radioMissing m h
  have ha := decayFactor_of_effParams_fallback m he
  have hd := decayedDose_of_effParams_fallback m he
  refine ⟨ha, hd, ?_⟩
  unfold calc_factor
  rw [ha, hd]

/-- Witness for C3 at a record whose acquisition time is missing. -/
theorem calc_factor_radioMissing_witness :
    calc_factor ⟨some 70, none, some 41400000000, some 6588, some 370000000⟩
        "SUV" =
      (if "SUV" = "SUV" then
        ((weightG
            ⟨some 70, none, some 41400000000, some 6588, some 370000000⟩ : ℝ) /
          (fallbackA * 420000000))
       else 1 / fallbackA) :=
  (calc_factor_radioMissing _ "SUV" (Or.inl rfl)).2.2

/-- Claim C4: a missing or unparseable weight tag gives the same result as
`patient_weight_kg = 75.0`, for every mode string; a present weight tag
resolves to `patient_weight_kg * 1000` grams. -/
theorem calc_factor_weightDefault (m : PETMeta) (mode : String) :
    (m.PatientWeight = none →
      calc_factor m mode =
        calc_factor { m with PatientWeight := some 75 } mode) ∧
    ∀ w, m.PatientWeight = some w → weightG m = w * 1000 := by
  constructor
  · intro h
    obtain ⟨w, a, i, hl, d⟩ := m
    subst h
    have hd : decayedDose ⟨some 75, a, i, hl, d⟩ =
        decayedDose ⟨none, a, i, hl, d⟩ := rfl
    have hf : decayFactor ⟨some 75, a, i, hl, d⟩ =
        decayFactor ⟨none, a, i, hl, d⟩ := rfl
    unfold calc_factor weightG
    rw [hd, hf]
    norm_num
  · intro w h
    unfold weightG
    rw [h]

/-- Witness for C4: missing weight behaves as 75 kg, and a 70 kg tag
resolves to 70000 g. -/
theorem calc_factor_weightDefault_witness :
    calc_factor ⟨none, none, none, some 6588, some 370000000⟩ "SUV" =
      calc_factor ⟨some 75, none, none, some 6588, some 370000000⟩ "SUV" ∧
    weightG ⟨some 70, none, none, none, none⟩ = 70 * 1000 :=
  ⟨(calc_factor_weightDefault ⟨none, none, none, some 6588, some 370000000⟩
      "SUV").1 rfl,
   (calc_factor_weightDefault ⟨some 70, none, none, none, none⟩ "SUV").2 70 rfl⟩

lemma effParams_precise (m : PETMeta) (st it : ℕ) (hl dose : ℚ)
    (hst : m.AcquisitionTime = some st)
    (hit : m.RadiopharmaceuticalStartTime = some it)
    (hhl : m.RadionuclideHalfLife = some hl)
    (hdose : m.RadionuclideTotalDose = some dose)
    (h0 : hl ≠ 0) :
    effParams m = ((deltaSec st it : ℚ), hl, dose) := by
  obtain ⟨w, a, i, h, d⟩ := m
  simp only at hst hit hhl hdose
  subst hst; subst hit; subst hhl; subst hdose
  simp [effParams, h0]

/-- Decay factor as claim C2 words it: delta-t is the real-valued number
of elapsed seconds from injection to acquisition, reduced modulo one
day (hence non-negative), with its fractional part retained. -/
noncomputable def specDecayFactor (m : PETMeta) : ℝ :=
  match m.AcquisitionTime, m.RadiopharmaceuticalStartTime,
        m.RadionuclideHalfLife, m.RadionuclideTotalDose with
  | some st, some it, some hl, some _ =>
      Real.exp (-(Real.log 2) *
        (((((st : ℤ) - (it : ℤ)) % 86400000000 : ℤ) : ℝ) / 1000000 / (hl : ℝ)))
  | _, _, _, _ => fallbackA

/-- Counterexample to claim C2 as stated: with acquisition 1.5 s after
injection the source floors delta-t to 1 s, while the claim's formula
keeps delta-t = 1.5 s, and the two decay factors differ. -/
theorem decayFactor_fracSecond_cex :
    decayFactor ⟨some 70, some 1500000, some 0, some 6588, some 1⟩ ≠
      specDecayFactor ⟨some 70, some 1500000, some 0, some 6588, some 1⟩ := by
  have he : effParams ⟨some 70, some 1500000, some 0, some 6588, some 1⟩ =
      (1, 6588, 1) := by decide
  have h1 : decayFactor ⟨some 70, some 1500000, some 0, some 6588, some 1⟩ =
      Real.exp (-(Real.log 2) * (1 / 6588)) := by
    unfold decayFactor
    rw [he]
    norm_num
  have hm : ((1500000 : ℤ) - (0 : ℤ)) % 86400000000 = 1500000 := by decide
  have h2 : specDecayFactor ⟨some 70, some 1500000, some 0, some 6588, some 1⟩ =
      Real.exp (-(Real.log 2) * (1.5 / 6588)) := by
    show Real.exp (-(Real.log 2) *
        (((((1500000 : ℤ) - (0 : ℤ)) % 86400000000 : ℤ) : ℝ) / 1000000 /
          ((6588 : ℚ) : ℝ))) =
      Real.exp (-(Real.log 2) * (1.5 / 6588))
    rw [hm]
    norm_num
  rw [h1, h2]
  intro heq
  rw [Real.exp_eq_exp] at heq
  have hlog : -(Real.log 2) ≠ 0 :=
    neg_ne_zero.mpr (ne_of_gt (Real.log_pos (by norm_num)))
  have := mul_left_cancel₀ hlog heq
  norm_num at this

/-- Claim C2 (amended): on the precise path (all four radiopharmaceutical
tags present and parseable, half-life non-zero), the decay factor is
`exp(-log 2 * (delta-t / half_life))` where delta-t is the whole-second
part of the elapsed time reduced modulo one day, and
`decayed_dose = a * total_dose`. -/
theorem decayFactor_precise (m : PETMeta) (st it : ℕ) (hl dose : ℚ)
    (hst : m.AcquisitionTime = some st)
    (hit : m.RadiopharmaceuticalStartTime = some it)
    (hhl : m.RadionuclideHalfLife = some hl)
    (hdose : m.RadionuclideTotalDose = some dose)
    (h0 : hl ≠ 0) :
    decayFactor m =
      Real.exp (-(Real.log 2) * ((deltaSec st it : ℝ) / (hl : ℝ))) ∧
    decayedDose m = decayFactor m * (dose : ℝ) := by
  have he := effParams_precise m st it hl dose hst hit hhl hdose h0
  unfold decayedDose decayFactor
  rw [he]
  norm_num

/-- Witness for C2 on the spec's concrete scenario (scan 120000.0,
injection 113000.0, half-life 6588 s, dose 3.7e8 Bq). -/
theorem decayFactor_precise_witness :
    decayFactor
        ⟨some 70, some 43200000000, some 41400000000, some 6588,
          some 370000000⟩ =
      Real.exp (-(Real.log 2) *
        ((deltaSec 43200000000 41400000000 : ℝ) / ((6588 : ℚ) : ℝ))) ∧
    decayedDose
        ⟨some 70, some 43200000000, some 41400000000, some 6588,
          some 370000000⟩ =
      decayFactor
          ⟨some 70, some 43200000000, some 41400000000, some 6588,
            some 370000000⟩ *
        ((370000000 : ℚ) : ℝ) :=
  decayFactor_precise _ _ _ _ _ rfl rfl rfl rfl (by norm_num)

lemma preciseOk_false_of_radioMissing (m : PETMeta) (h : radioTagMissing m) :
    preciseOk m = false := by
  obtain ⟨w, a, i, hl, d⟩ := m
  rcases a with _ | st <;> rcases i with _ | it <;>
    rcases hl with _ | hlv <;> rcases d with _ | dv <;>
    first
      | rfl
      | simp [radioTagMissing] at h

/-- Claim C5: any combination of missing or unparseable tags never aborts
the computation: at least one warning is emitted and the function still
returns the ordinary `calc_factor` value built from the substituted
defaults. -/
theorem calc_factorW_missing (m : PETMeta) (mode : String)
    (h : anyTagMissing m) :
    (calc_factorW m mode).2 ≠ [] ∧
    (calc_factorW m mode).1 = calc_factor m mode := by
  refine ⟨?_, rfl⟩
  rcases h with h | h
  · simp [calc_factorW, h]
  · simp [calc_factorW, preciseOk_false_of_radioMissing m h]

/-- Witness for C5 at the record with all five tags missing. -/
theorem calc_factorW_missing_witness :
    (calc_factorW ⟨none, none, none, none, none⟩ "ACT").2 ≠ [] ∧
    (calc_factorW ⟨none, none, none, none, none⟩ "ACT").1 =
      calc_factor ⟨none, none, none, none, none⟩ "ACT" :=
  calc_factorW_missing _ "ACT" (Or.inl rfl)

/-- Claim C6: the final divisions are unguarded: a zero decayed dose
reaches the `suv` division (which executes before the mode branch) and
surfaces to the caller as a division fault in either mode. -/
theorem calc_factorDiv_zero (m : PETMeta) (mode : String)
    (h : decayedDose m = 0) :
    calc_factorDiv m mode = none := by
  unfold calc_factorDiv
  rw [if_pos h]

/-- Witness for C6 at a record with a parseable zero total dose. -/
theorem calc_factorDiv_zero_witness :
    calc_factorDiv ⟨some 70, some 0, some 0, some 6588, some 0⟩ "SUV" =
      none := by
  have he : effParams ⟨some 70, some 0, some 0, some 6588, some 0⟩ =
      (0, 6588, 0) := by decide
  have h : decayedDose ⟨some 70, some 0, some 0, some 6588, some 0⟩ = 0 := by
    unfold decayedDose
    rw [he]
    norm_num
  exact calc_factorDiv_zero _ "SUV" h

lemma calc_factor_act_eq (m : PETMeta) (mode : String) (h : mode ≠ "SUV") :
    calc_factor m mode = 1 / decayFactor m := by
  unfold calc_factor
  rw [if_neg h]

/-- Claim C7: positive weight, half-life and dose give a positive SUV
factor and a positive ACT factor. -/
theorem calc_factor_pos (m : PETMeta) (w hl dose : ℚ)
    (hw : m.PatientWeight = some w) (hw0 : 0 < w)
    (hhl : m.RadionuclideHalfLife = some hl) (hhl0 : 0 < hl)
    (hd : m.RadionuclideTotalDose = some dose) (hd0 : 0 < dose) :
    0 < calc_factor m "SUV" ∧ 0 < calc_factor m "ACT" := by
  have hdd : 0 < decayedDose m := by
    rcases ha : m.AcquisitionTime with _ | st
    · rw [decayedDose_of_effParams_fallback m
        (effParams_radioMissing m (Or.inl ha))]
      have := fallbackA_pos
      nlinarith
    · rcases hi : m.RadiopharmaceuticalStartTime with _ | it
      · rw [decayedDose_of_effParams_fallback m
          (effParams_radioMissing m (Or.inr (Or.inl hi)))]
        have := fallbackA_pos
        nlinarith
      · have he := effParams_precise m st it hl dose ha hi hhl hd
          (ne_of_gt hhl0)
        unfold decayedDose
        rw [he]
        have h1 := decayFactor_pos m
        have h2 : (0 : ℝ) < ((dose : ℚ) : ℝ) := by exact_mod_cast hd0
        exact mul_pos h1 h2
  have hwg : (0 : ℝ) < (weightG m : ℝ) := by
    have : weightG m = w * 1000 := by
      unfold weightG
      rw [hw]
    rw [this]
    have : (0 : ℚ) < w * 1000 := by nlinarith
    exact_mod_cast this
  constructor
  · show 0 < (weightG m : ℝ) / decayedDose m
    exact div_pos hwg hdd
  · rw [calc_factor_act_eq m "ACT" (by decide)]
    exact div_pos one_pos (decayFactor_pos m)

/-- Witness for C7 on the spec's concrete scenario. -/
theorem calc_factor_pos_witness :
    0 < calc_factor
        ⟨some 70, some 43200000000, some 41400000000, some 6588,
          some 370000000⟩ "SUV" ∧
    0 < calc_factor
        ⟨some 70, some 43200000000, some 41400000000, some 6588,
          some 370000000⟩ "ACT" :=
  calc_factor_pos _ 70 6588 370000000 rfl (by norm_num) rfl (by norm_num)
    rfl (by norm_num)

/-- Claim C8: on the precise path with equal acquisition and injection
times the decay factor is exactly 1 and the ACT factor is exactly 1. -/
theorem decayFactor_eq_times (m : PETMeta) (t : ℕ) (hl dose : ℚ)
    (hst : m.AcquisitionTime = some t)
    (hit : m.RadiopharmaceuticalStartTime = some t)
    (hhl : m.RadionuclideHalfLife = some hl) (h0 : hl ≠ 0)
    (hd : m.RadionuclideTotalDose = some dose) :
    decayFactor m = 1 ∧ calc_factor m "ACT" = 1 := by
  have he := effParams_precise m t t hl dose hst hit hhl hd h0
  have hds : deltaSec t t = 0 := by
    unfold deltaSec
    simp
  have ha : decayFactor m = 1 := by
    unfold decayFactor
    rw [he, hds]
    norm_num
  refine ⟨ha, ?_⟩
  rw [calc_factor_act_eq m "ACT" (by decide), ha]
  norm_num

/-- Witness for C8 at acquisition time equal to injection time. -/
theorem decayFactor_eq_times_witness :
    decayFactor
        ⟨some 70, some 41400000000, some 41400000000, some 6588,
          some 370000000⟩ = 1 ∧
    calc_factor
        ⟨some 70, some 41400000000, some 41400000000, some 6588,
          some 370000000⟩ "ACT" = 1 :=
  decayFactor_eq_times _ 41400000000 6588 370000000 rfl rfl rfl
    (by norm_num) rfl

/-- Claim C9: the mode string is not validated: every string other than
the exact "SUV" selects the ACT branch `1 / a`. -/
theorem calc_factor_mode_unchecked (m : PETMeta) (mode : String)
    (h : mode ≠ "SUV") :
    calc_factor m mode = 1 / decayFactor m := by
  unfold calc_factor
  rw [if_neg h]

/-- Witness for C9 at the lower-case mode string "act". -/
theorem calc_factor_mode_unchecked_witness :
    calc_factor ⟨none, none, none, none, none⟩ "act" =
      1 / decayFactor ⟨none, none, none, none, none⟩ :=
  calc_factor_mode_unchecked _ "act" (by decide)

lemma effParams_zeroHalfLife (m : PETMeta) (st it : ℕ) (dose : ℚ)
    (hst : m.AcquisitionTime = some st)
    (hit : m.RadiopharmaceuticalStartTime = some it)
    (hhl : m.RadionuclideHalfLife = some 0)
    (hd : m.RadionuclideTotalDose = some dose) :
    effParams m = (1.75 * 3600, 6588, 420000000) := by
  obtain ⟨w, a, i, h, d⟩ := m
  simp only at hst hit hhl hd
  subst hst; subst hit; subst hhl; subst hd
  simp [effParams]

/-- Claim C10: all four radiopharmaceutical tags present but a zero
half-life: the ZeroDivisionError inside the precise branch is swallowed
by the bare except, a warning is emitted and the fallback result is
returned, with no division fault surfacing to the caller. -/
theorem calc_factor_zeroHalfLife (m : PETMeta) (st it : ℕ) (dose : ℚ)
    (mode : String)
    (hst : m.AcquisitionTime = some st)
    (hit : m.RadiopharmaceuticalStartTime = some it)
    (hhl : m.RadionuclideHalfLife = some 0)
    (hd : m.RadionuclideTotalDose = some dose) :
    calc_factorDiv m mode = some (calc_factor m mode) ∧
    decayFactor m = fallbackA ∧
    decayedDose m = fallbackA * 420000000 ∧
    (calc_factorW m mode).2 ≠ [] := by
  have he := effParams_zeroHalfLife m st it dose hst hit hhl hd
  have ha := decayFactor_of_effParams_fallback m he
  have hdd := decayedDose_of_effParams_fallback m he
  have hdd0 : decayedDose m ≠ 0 := by
    rw [hdd]
    have := fallbackA_pos
    nlinarith
  have hp : preciseOk m = false := by
    obtain ⟨w, a, i, h, d⟩ := m
    simp only at hst hit hhl hd
    subst hst; subst hit; subst hhl; subst hd
    simp [preciseOk]
  refine ⟨?_, ha, hdd, ?_⟩
  · by_cases hm : mode = "SUV"
    · simp [calc_factorDiv, calc_factor, hm, hdd0]
    · simp [calc_factorDiv, calc_factor, hm, hdd0,
        ne_of_gt (decayFactor_pos m)]
  · simp [calc_factorW, hp]

/-- Witness for C10 at a record with a parseable zero half-life. -/
theorem calc_factor_zeroHalfLife_witness :
    calc_factorDiv ⟨some 70, some 43200000000, some 41400000000, some 0,
        some 370000000⟩ "SUV" =
      some (calc_factor ⟨some 70, some 43200000000, some 41400000000,
        some 0, some 370000000⟩ "SUV") ∧
    decayFactor ⟨some 70, some 43200000000, some 41400000000, some 0,
        some 370000000⟩ = fallbackA ∧
    decayedDose ⟨some 70, some 43200000000, some 41400000000, some 0,
        some 370000000⟩ = fallbackA * 420000000 ∧
    (calc_factorW ⟨some 70, some 43200000000, some 41400000000, some 0,
        some 370000000⟩ "SUV").2 ≠ [] :=
  calc_factor_zeroHalfLife _ 43200000000 41400000000 370000000 "SUV"
    rfl rfl rfl rfl
